import Mathlib

/-!
Shallow embedding of the signal fusion and backtesting engine of the
repository (SignalFusionEngine, EnhancedSignalGenerator, BacktestingService).

JavaScript numbers are modelled as exact rationals. Division by zero follows
the Lean convention x / 0 = 0 except where a JavaScript Infinity or NaN
comparison is observable, in which case the zero-denominator case is embedded
explicitly and documented at the definition. Structures and functions mirror
the TypeScript source; exceptions are modelled with Except, the randomness of
randomUUID, Date.now and Math.random-generated data is modelled by explicit
parameters, and the five indicator calculators of the external
technicalindicators npm package (plus the runtime Math.sqrt) are a parameter
of the embedding, since they are not part of this repository.
-/

set_option autoImplicit false

/-- Decides whether the first character list is an initial segment of the
second; building block for the JavaScript String.includes test. -/
def leadsWith : List Char → List Char → Bool
  | [], _ => true
  | _ :: _, [] => false
  | a :: as, b :: bs => a == b && leadsWith as bs

/-- Decides whether the first character list occurs contiguously inside the
second. -/
def hasSegment : List Char → List Char → Bool
  | pat, [] => leadsWith pat []
  | pat, c :: rest => leadsWith pat (c :: rest) || hasSegment pat rest

/-- Models the JavaScript expression s.includes(sub). -/
def jsIncludes (s sub : String) : Bool := hasSegment sub.data s.data

/-- Rounding half away from zero on rationals; used to model
Number(x.toFixed(dp)) and the digits produced by toFixed. The binary floating
point tie behaviour of toFixed is abstracted to exact half-away-from-zero
rounding on exact rationals. -/
def qRoundHalfAway (x : ℚ) : ℤ := if x < 0 then -⌊-x + 1 / 2⌋ else ⌊x + 1 / 2⌋

/-- Models Number(x.toFixed(dp)): x rounded to dp decimal digits. -/
def jsToFixedNum (dp : ℕ) (x : ℚ) : ℚ := (qRoundHalfAway (x * 10 ^ dp) : ℚ) / 10 ^ dp

/-- Left-pads a string with zero digits up to length n. -/
def padZero (n : ℕ) (s : String) : String :=
  String.mk (List.replicate (n - s.length) '0') ++ s

/-- Models the string x.toFixed(dp) for a JavaScript number x. -/
def qToFixed (dp : ℕ) (x : ℚ) : String :=
  let neg := x < 0
  let scaled := (qRoundHalfAway (|x| * 10 ^ dp)).toNat
  let ip := scaled / 10 ^ dp
  let fp := scaled % 10 ^ dp
  (if neg then "-" else "") ++ toString ip ++
    (if dp = 0 then "" else "." ++ padZero dp (toString fp))

/-! ## Signal fusion engine (SignalFusionEngine) -/

/-- The BUY / SELL / HOLD direction, also used as the action of an
EnhancedSignal. -/
inductive Direction
  | BUY
  | SELL
  | HOLD
  deriving DecidableEq, Repr

inductive RiskLevel
  | LOW
  | MEDIUM
  | HIGH
  deriving DecidableEq, Repr

inductive TimeHorizon
  | SHORT
  | MEDIUM
  | LONG
  deriving DecidableEq, Repr

inductive MarketCondition
  | BULLISH
  | BEARISH
  | NEUTRAL
  deriving DecidableEq, Repr

/-- A table of the five data source weights. -/
structure Weights where
  technical : ℚ
  social : ℚ
  telegram : ℚ
  indianMarket : ℚ
  news : ℚ
  deriving DecidableEq, Repr

/-- SignalFusionEngine.dataSourceWeights, the default weight table. -/
def dataSourceWeights : Weights :=
  { technical := 0.30, social := 0.25, telegram := 0.25,
    indianMarket := 0.10, news := 0.10 }

/-- The weight table after the cryptocurrency mutation performed inside
calculateWeightedScore (social 0.30, telegram 0.30, technical 0.25,
indianMarket 0.05, news 0.10). -/
def cryptoWeights : Weights :=
  { technical := 0.25, social := 0.30, telegram := 0.30,
    indianMarket := 0.05, news := 0.10 }

/-- The weight table after the Indian stock mutation performed inside
calculateWeightedScore (indianMarket 0.35, technical 0.35, social 0.15,
telegram 0.10, news 0.05). -/
def indianWeights : Weights :=
  { technical := 0.35, social := 0.15, telegram := 0.10,
    indianMarket := 0.35, news := 0.05 }

def cryptoSymbols : List String :=
  ["BTC", "ETH", "ADA", "SOL", "MATIC", "DOT", "LINK", "UNI", "AVAX", "ATOM"]

def indianStocks : List String :=
  ["RELIANCE", "TCS", "HDFCBANK", "INFY", "HINDUNILVR", "ICICIBANK",
   "KOTAKBANK", "SBIN"]

/-- The symbol-class dispatch performed at the start of
calculateWeightedScore: exact membership in cryptoSymbols first, then the
substring test against indianStocks, else the default table. -/
def weightsFor (symbol : String) : Weights :=
  if cryptoSymbols.contains symbol then cryptoWeights
  else if indianStocks.any (fun stock => jsIncludes symbol stock) then indianWeights
  else dataSourceWeights

/-- The five per-source scores handed to calculateWeightedScore. -/
structure SourceScores where
  technicalScore : ℚ
  socialScore : ℚ
  telegramScore : ℚ
  indianMarketScore : ℚ
  newsScore : ℚ
  deriving DecidableEq, Repr

/-- The weighted sum computed inside calculateWeightedScore. -/
def weightedSum (w : Weights) (s : SourceScores) : ℚ :=
  s.technicalScore * w.technical + s.socialScore * w.social +
    s.telegramScore * w.telegram + s.indianMarketScore * w.indianMarket +
    s.newsScore * w.news

/-- SignalFusionEngine.calculateWeightedScore: symbol-class weights applied
to the five scores, clamped to the interval from -1 to 1. -/
def calculateWeightedScore (scores : SourceScores) (symbol : String) : ℚ :=
  max (-1) (min 1 (weightedSum (weightsFor symbol) scores))

/-- SignalFusionEngine.determineDirectionAndConfidence. -/
def determineDirectionAndConfidence (finalScore : ℚ) : Direction × ℚ :=
  let absScore := |finalScore|
  let confidence := min 100 (max 50 (absScore * 100))
  if finalScore > 0.15 then (Direction.BUY, confidence)
  else if finalScore < -0.15 then (Direction.SELL, confidence)
  else (Direction.HOLD, min confidence 60)

structure MarketAssessment where
  riskLevel : RiskLevel
  timeHorizon : TimeHorizon
  marketCondition : MarketCondition
  deriving DecidableEq, Repr

/-- SignalFusionEngine.assessMarketConditions (the unused symbol argument of
the source is dropped). -/
def assessMarketConditions (technicalScore socialScore telegramScore : ℚ)
    (socialMentions telegramMentions : ℕ) : MarketAssessment :=
  let totalMentions := socialMentions + telegramMentions
  let sentimentConsistency := |socialScore - telegramScore|
  let riskLevel :=
    if totalMentions > 50 ∧ sentimentConsistency < 0.3 then RiskLevel.LOW
    else if totalMentions < 10 ∨ sentimentConsistency > 0.7 then RiskLevel.HIGH
    else RiskLevel.MEDIUM
  let signalStrength := |technicalScore| + |socialScore| + |telegramScore|
  let timeHorizon :=
    if signalStrength > 1.5 then TimeHorizon.SHORT
    else if signalStrength < 0.5 then TimeHorizon.LONG
    else TimeHorizon.MEDIUM
  let avgSentiment := (socialScore + telegramScore + technicalScore) / 3
  let marketCondition :=
    if avgSentiment > 0.2 then MarketCondition.BULLISH
    else if avgSentiment < -0.2 then MarketCondition.BEARISH
    else MarketCondition.NEUTRAL
  { riskLevel := riskLevel, timeHorizon := timeHorizon,
    marketCondition := marketCondition }

/-- The mock price table of SignalFusionEngine.getMockCurrentPrice. -/
def mockPrices : List (String × ℚ) :=
  [("BTC", 43500), ("ETH", 2650), ("ADA", 0.48), ("SOL", 98),
   ("MATIC", 0.82), ("RELIANCE", 2850), ("TCS", 4200), ("HDFCBANK", 1650),
   ("INFY", 1850)]

def lookupPrice (s : String) : Option ℚ :=
  (mockPrices.find? (fun p => p.1 == s)).map (fun p => p.2)

/-- Models symbol.replace with the global pattern alternating USD and -EQ:
a left-to-right scan removing each occurrence (the USDT alternative of the
source pattern is unreachable because USD matches first). -/
def stripTicker : List Char → List Char
  | [] => []
  | a :: b :: c :: rest2 =>
    if a = 'U' ∧ b = 'S' ∧ c = 'D' then stripTicker rest2
    else if a = '-' ∧ b = 'E' ∧ c = 'Q' then stripTicker rest2
    else a :: stripTicker (b :: c :: rest2)
  | a :: rest => a :: stripTicker rest

/-- SignalFusionEngine.getMockCurrentPrice: direct lookup, then lookup of the
symbol with USD and -EQ stripped, else null. All table prices are nonzero, so
the JavaScript falsiness test coincides with the Option structure. -/
def getMockCurrentPrice (symbol : String) : Option ℚ :=
  match lookupPrice symbol with
  | some p => some p
  | none => lookupPrice (String.mk (stripTicker symbol.data))

structure TradingParams where
  suggestedEntry : Option ℚ
  suggestedStopLoss : Option ℚ
  suggestedTarget : Option ℚ
  positionSize : Option ℚ
  deriving DecidableEq, Repr

/-- Models the expression entry ? Number(entry.toFixed(4)) : undefined,
including the JavaScript falsiness of a zero value. -/
def optRound4 (o : Option ℚ) : Option ℚ :=
  match o with
  | none => none
  | some v => if v = 0 then none else some (jsToFixedNum 4 v)

/-- SignalFusionEngine.generateTradingParameters. -/
def generateTradingParameters (symbol : String) (direction : Direction)
    (confidence : ℚ) : TradingParams :=
  match getMockCurrentPrice symbol with
  | none =>
    { suggestedEntry := none, suggestedStopLoss := none,
      suggestedTarget := none, positionSize := none }
  | some currentPrice =>
    let volatilityFactor : ℚ := 0.05
    let riskReward : ℚ := 2
    let est : Option ℚ × Option ℚ × Option ℚ :=
      match direction with
      | Direction.BUY =>
        (some (currentPrice * (1 + 0.01)),
         some (currentPrice * (1 - volatilityFactor)),
         some (currentPrice * (1 + volatilityFactor * riskReward)))
      | Direction.SELL =>
        (some (currentPrice * (1 - 0.01)),
         some (currentPrice * (1 + volatilityFactor)),
         some (currentPrice * (1 - volatilityFactor * riskReward)))
      | Direction.HOLD => (none, none, none)
    let positionSize := min 5 (max 1 (confidence / 20))
    { suggestedEntry := optRound4 est.1,
      suggestedStopLoss := optRound4 est.2.1,
      suggestedTarget := optRound4 est.2.2,
      positionSize := some (jsToFixedNum 1 positionSize) }

/-- SignalFusionEngine.calculateSentimentMomentum. -/
def calculateSentimentMomentum (socialScore telegramScore : ℚ) : ℚ :=
  let alignment := 1 - |socialScore - telegramScore|
  let avgSentiment := (socialScore + telegramScore) / 2
  alignment * |avgSentiment|

/-- SignalFusionEngine.calculateVolumeIndicator. -/
def calculateVolumeIndicator (socialMentions telegramMentions : ℕ) : ℚ :=
  min 1 (((socialMentions + telegramMentions : ℕ) : ℚ) / 100)

/-- SignalFusionEngine.generateReasoning: the ordered concatenation of the
factor sentences. The direction entry of the data record is unused in the
source and dropped here; the indianMarketScore guard reproduces the
truthiness test data.indianMarketScore && followed by the magnitude test. -/
def fusionReasoning (technicalScore socialScore telegramScore
    indianMarketScore newsScore finalScore : ℚ)
    (socialMentions telegramMentions : ℕ) : String :=
  let reasons : List String :=
    (if |technicalScore| > 0.3 then
      ["Technical indicators show " ++
        (if technicalScore > 0 then "bullish" else "bearish") ++ " momentum"]
     else []) ++
    (if socialMentions > 5 then
      [toString socialMentions ++ " social mentions with " ++
        (if socialScore > 0 then "positive" else "negative") ++ " sentiment"]
     else []) ++
    (if telegramMentions > 2 then
      [toString telegramMentions ++ " Telegram mentions trending " ++
        (if telegramScore > 0 then "bullish" else "bearish")]
     else []) ++
    (if indianMarketScore ≠ 0 ∧ |indianMarketScore| > 0.2 then
      ["Indian market showing " ++
        (if indianMarketScore > 0 then "strength" else "weakness")]
     else []) ++
    (if |newsScore| > 0.2 then
      ["News sentiment is " ++ (if newsScore > 0 then "positive" else "negative")]
     else []) ++
    ["Combined AI score: " ++ (if finalScore > 0 then "+" else "") ++
      qToFixed 1 (finalScore * 100) ++ "%"]
  String.intercalate ". " reasons

/-- SignalFusionEngine.getUsedDataSources. -/
def getUsedDataSources (technicalOk socialOk telegramOk indianOk newsOk : Bool) :
    List String :=
  (if technicalOk then ["Technical Analysis"] else []) ++
  (if socialOk then ["Social Sentiment"] else []) ++
  (if telegramOk then ["Telegram Signals"] else []) ++
  (if indianOk then ["Indian Market Data"] else []) ++
  (if newsOk then ["News Analysis"] else [])

/-- The outcome of the Promise.allSettled barrier over the five source
queries in generateFusionSignal: some carries a fulfilled value, none is a
rejection (the source then substitutes the neutral defaults). The technical
entry subsumes the Math.random mock data consumed by getTechnicalScore: the
claims about generateFusionSignal quantify over these settled results. -/
structure SourceResults where
  technical : Option ℚ
  social : Option (ℚ × ℕ)
  telegram : Option (ℚ × ℕ)
  indianMarket : Option ℚ
  news : Option ℚ
  deriving DecidableEq, Repr

structure FusionSignal where
  id : String
  symbol : String
  direction : Direction
  confidence : ℚ
  finalScore : ℚ
  reasoning : String
  timestamp : ℕ
  technicalScore : ℚ
  socialScore : ℚ
  telegramScore : ℚ
  indianMarketScore : ℚ
  newsScore : ℚ
  socialMentions : ℕ
  telegramMentions : ℕ
  sentimentMomentum : ℚ
  volumeIndicator : ℚ
  riskLevel : RiskLevel
  timeHorizon : TimeHorizon
  marketCondition : MarketCondition
  suggestedEntry : Option ℚ
  suggestedStopLoss : Option ℚ
  suggestedTarget : Option ℚ
  positionSize : Option ℚ
  dataSourcesUsed : List String
  lastUpdated : ℕ
  isActive : Bool

/-- SignalFusionEngine.generateFusionSignal. The id argument models the
randomUUID() draw and the timestamp argument the new Date() call made at the
top of the method; src models the settled results of the five source
queries. The storage save is a side effect without influence on the returned
value and is not modelled. -/
def generateFusionSignal (symbol : String) (src : SourceResults) (id : String)
    (timestamp : ℕ) : FusionSignal :=
  let technicalScore := src.technical.getD 0
  let socialScore := (src.social.map Prod.fst).getD 0
  let telegramScore := (src.telegram.map Prod.fst).getD 0
  let indianMarketScore := src.indianMarket.getD 0
  let newsScore := src.news.getD 0
  let socialMentions := (src.social.map Prod.snd).getD 0
  let telegramMentions := (src.telegram.map Prod.snd).getD 0
  let sentimentMomentum := calculateSentimentMomentum socialScore telegramScore
  let finalScore := calculateWeightedScore
    { technicalScore := technicalScore, socialScore := socialScore,
      telegramScore := telegramScore, indianMarketScore := indianMarketScore,
      newsScore := newsScore } symbol
  let dc := determineDirectionAndConfidence finalScore
  let ma := assessMarketConditions technicalScore socialScore telegramScore
    socialMentions telegramMentions
  let tp := generateTradingParameters symbol dc.1 dc.2
  let reasoning := fusionReasoning technicalScore socialScore telegramScore
    indianMarketScore newsScore finalScore socialMentions telegramMentions
  { id := id, symbol := symbol, direction := dc.1, confidence := dc.2,
    finalScore := finalScore, reasoning := reasoning, timestamp := timestamp,
    technicalScore := technicalScore, socialScore := socialScore,
    telegramScore := telegramScore, indianMarketScore := indianMarketScore,
    newsScore := newsScore, socialMentions := socialMentions,
    telegramMentions := telegramMentions,
    sentimentMomentum := sentimentMomentum,
    volumeIndicator := calculateVolumeIndicator socialMentions telegramMentions,
    riskLevel := ma.riskLevel, timeHorizon := ma.timeHorizon,
    marketCondition := ma.marketCondition,
    suggestedEntry := tp.suggestedEntry,
    suggestedStopLoss := tp.suggestedStopLoss,
    suggestedTarget := tp.suggestedTarget, positionSize := tp.positionSize,
    dataSourcesUsed := getUsedDataSources src.technical.isSome
      src.social.isSome src.telegram.isSome src.indianMarket.isSome
      src.news.isSome,
    lastUpdated := timestamp, isActive := true }

/-! ## Enhanced signal generator (EnhancedSignalGenerator) -/

/-- One OHLCV candle as in the MarketDataPoint interface (the open field is
renamed openPrice because open is a Lean keyword). -/
structure MarketDataPoint where
  price : ℚ
  volume : ℚ
  timestamp : ℕ
  high : ℚ
  low : ℚ
  openPrice : ℚ
  close : ℚ
  deriving DecidableEq, Repr

inductive Trend
  | bullish
  | bearish
  | neutral
  deriving DecidableEq, Repr

structure MacdVal where
  value : ℚ
  signal : ℚ
  histogram : ℚ
  deriving DecidableEq, Repr

structure BollingerVal where
  upper : ℚ
  middle : ℚ
  lower : ℚ
  deriving DecidableEq, Repr

structure TechnicalIndicators where
  rsi : ℚ
  macd : MacdVal
  sma20 : ℚ
  sma50 : ℚ
  ema12 : ℚ
  ema26 : ℚ
  bollingerBands : BollingerVal
  trend : Trend
  deriving DecidableEq, Repr

/-- One entry of the MACD.calculate output of the external library; its
fields are optional in the library typing. -/
structure MacdOut where
  MACD : Option ℚ
  signal : Option ℚ
  histogram : Option ℚ
  deriving DecidableEq, Repr

/-- The indicator calculators imported from the external technicalindicators
npm package, plus the runtime Math.sqrt. They are not code of this
repository, so the embedding is parametric in them: every theorem below
holds for every choice of these functions. rsiCalc is RSI.calculate at
period 14, macdCalc is MACD.calculate at 12/26/9, smaCalc and emaCalc take
the period, bbCalc is BollingerBands.calculate at period 20 and two standard
deviations. -/
structure IndLib where
  rsiCalc : List ℚ → List ℚ
  macdCalc : List ℚ → List MacdOut
  smaCalc : ℕ → List ℚ → List ℚ
  emaCalc : ℕ → List ℚ → List ℚ
  bbCalc : List ℚ → List BollingerVal
  sqrtFn : ℚ → ℚ

/-- The InsufficientData failure of the indicator engine: the throw of
Insufficient historical data for technical analysis. -/
inductive IndicatorError
  | insufficientData
  deriving DecidableEq, Repr

/-- Models arr[arr.length - 1] || d on a numeric array: JavaScript yields d
when the array is empty (undefined is falsy) and when the last element is 0
(0 is falsy). -/
def jsLastOr (l : List ℚ) (d : ℚ) : ℚ :=
  match l.getLast? with
  | none => d
  | some v => if v = 0 then d else v

/-- Models o || 0 for an optional number o: none and 0 both collapse to 0. -/
def jsOrZero (o : Option ℚ) : ℚ := o.getD 0

/-- EnhancedSignalGenerator.calculateTechnicalIndicators: throws (here the
error case) when fewer than 50 closes are present, otherwise assembles the
indicator record from the library outputs with the fallback defaults of the
source. -/
def calculateTechnicalIndicators (lib : IndLib)
    (marketData : List MarketDataPoint) :
    Except IndicatorError TechnicalIndicators :=
  let closes := marketData.map (fun d => d.close)
  if closes.length < 50 then Except.error IndicatorError.insufficientData
  else
    let rsiValues := lib.rsiCalc closes
    let macdValues := lib.macdCalc closes
    let sma20Values := lib.smaCalc 20 closes
    let sma50Values := lib.smaCalc 50 closes
    let ema12Values := lib.emaCalc 12 closes
    let ema26Values := lib.emaCalc 26 closes
    let bbValues := lib.bbCalc closes
    let currentRSI := jsLastOr rsiValues 50
    let currentMACD := (macdValues.getLast?).getD
      { MACD := some 0, signal := some 0, histogram := some 0 }
    let macdValue := jsOrZero currentMACD.MACD
    let macdSignal := jsOrZero currentMACD.signal
    let macdHistogram := jsOrZero currentMACD.histogram
    let lastClose := closes.getLastD 0
    let currentSMA20 := jsLastOr sma20Values lastClose
    let currentSMA50 := jsLastOr sma50Values lastClose
    let currentEMA12 := jsLastOr ema12Values lastClose
    let currentEMA26 := jsLastOr ema26Values lastClose
    let currentBB := (bbValues.getLast?).getD { upper := 0, middle := 0, lower := 0 }
    let currentPrice := lastClose
    let trend :=
      if currentEMA12 > currentEMA26 ∧ currentPrice > currentSMA20 ∧ macdValue > 0 then
        Trend.bullish
      else if currentEMA12 < currentEMA26 ∧ currentPrice < currentSMA20 ∧ macdValue < 0 then
        Trend.bearish
      else Trend.neutral
    Except.ok
      { rsi := currentRSI,
        macd := { value := macdValue, signal := macdSignal, histogram := macdHistogram },
        sma20 := currentSMA20, sma50 := currentSMA50,
        ema12 := currentEMA12, ema26 := currentEMA26,
        bollingerBands := currentBB, trend := trend }

/-- RSI contribution of calculateTechnicalScore. -/
def rsiTerm (rsi : ℚ) : ℚ :=
  if rsi < 30 then 0.8
  else if rsi > 70 then -0.8
  else (50 - rsi) / 50

/-- MACD contribution of calculateTechnicalScore. -/
def macdTerm (m : MacdVal) : ℚ :=
  if m.value > m.signal ∧ m.histogram > 0 then 0.7
  else if m.value < m.signal ∧ m.histogram < 0 then -0.7
  else 0

/-- Moving average contribution of calculateTechnicalScore. -/
def maTerm (currentPrice sma20 sma50 : ℚ) : ℚ :=
  if currentPrice > sma20 ∧ sma20 > sma50 then 0.6
  else if currentPrice < sma20 ∧ sma20 < sma50 then -0.6
  else 0

/-- Bollinger band contribution of calculateTechnicalScore. The source
computes (price - lower) / (upper - lower) and compares against 0.2 and 0.8;
when upper = lower the JavaScript division yields Infinity, minus Infinity
or NaN, whose comparison outcomes are reproduced by the explicit
zero-denominator case. -/
def bbTerm (currentPrice : ℚ) (bb : BollingerVal) : ℚ :=
  let num := currentPrice - bb.lower
  let denom := bb.upper - bb.lower
  if denom = 0 then
    if num > 0 then -0.5 else if num < 0 then 0.5 else 0
  else
    let bbPosition := num / denom
    if bbPosition < 0.2 then 0.5
    else if bbPosition > 0.8 then -0.5
    else 0

/-- Trend contribution of calculateTechnicalScore. -/
def trendTerm (t : Trend) : ℚ :=
  match t with
  | Trend.bullish => 0.4
  | Trend.bearish => -0.4
  | Trend.neutral => 0

/-- EnhancedSignalGenerator.calculateTechnicalScore: the five additive
contributions divided by the constant factor count 5. -/
def calculateTechnicalScore (indicators : TechnicalIndicators)
    (currentPrice : ℚ) : ℚ :=
  (rsiTerm indicators.rsi + macdTerm indicators.macd +
    maTerm currentPrice indicators.sma20 indicators.sma50 +
    bbTerm currentPrice indicators.bollingerBands +
    trendTerm indicators.trend) / 5

structure EnsembleOut where
  action : Direction
  confidence : ℚ
  combinedScore : ℚ
  deriving DecidableEq, Repr

/-- EnhancedSignalGenerator.ensembleSignal with its default forecast score. -/
def ensembleSignal (technicalScore newsScore forecastScore : ℚ) : EnsembleOut :=
  let combinedScore := technicalScore * 0.5 + newsScore * 0.3 + forecastScore * 0.2
  if combinedScore > 0.4 then
    { action := Direction.BUY, confidence := min (combinedScore * 100) 95,
      combinedScore := combinedScore }
  else if combinedScore < -0.4 then
    { action := Direction.SELL, confidence := min (|combinedScore| * 100) 95,
      combinedScore := combinedScore }
  else
    { action := Direction.HOLD, confidence := 50 + |combinedScore| * 50,
      combinedScore := combinedScore }

/-- A news article as consumed by calculateNewsScore (untyped any in the
source; only these two fields are read). -/
structure NewsArticle where
  sentimentScore : Option ℚ
  relevanceScore : Option ℚ
  deriving DecidableEq, Repr

/-- EnhancedSignalGenerator.calculateNewsScore; relevanceScore || 0.5
reproduces the JavaScript falsiness of 0. -/
def calculateNewsScore (newsArticles : List NewsArticle) : ℚ :=
  if newsArticles.length = 0 then 0
  else
    let step := fun (acc : ℚ × ℕ) (article : NewsArticle) =>
      match article.sentimentScore with
      | some s =>
        let normalizedScore := (s - 0.5) * 2
        let rel :=
          match article.relevanceScore with
          | none => (0.5 : ℚ)
          | some r => if r = 0 then 0.5 else r
        (acc.1 + normalizedScore * rel, acc.2 + 1)
      | none => acc
    let res := newsArticles.foldl step (0, 0)
    if res.2 > 0 then res.1 / (res.2 : ℚ) else 0

/-- EnhancedSignalGenerator.calculateRiskLevel. -/
def calculateRiskLevel (indicators : TechnicalIndicators)
    (combinedScore : ℚ) : RiskLevel :=
  let riskFactors : ℕ :=
    (if indicators.rsi > 80 ∨ indicators.rsi < 20 then 1 else 0) +
    (if |combinedScore| < 0.3 then 1 else 0) +
    (if |indicators.macd.histogram| > 1 then 1 else 0)
  if riskFactors ≥ 2 then RiskLevel.HIGH
  else if riskFactors = 1 then RiskLevel.MEDIUM
  else RiskLevel.LOW

/-- EnhancedSignalGenerator.calculatePriceTargets, returning the pair of
target price and stop loss. A zero middle band makes the JavaScript
volatility NaN; no modelled claim reaches that case and the rational
convention x / 0 = 0 is used. -/
def calculatePriceTargets (currentPrice : ℚ) (action : Direction)
    (indicators : TechnicalIndicators) : ℚ × ℚ :=
  let volatility := |indicators.bollingerBands.upper -
    indicators.bollingerBands.lower| / indicators.bollingerBands.middle
  match action with
  | Direction.BUY =>
    (currentPrice * (1 + volatility * 1.5), currentPrice * (1 - volatility * 0.8))
  | Direction.SELL =>
    (currentPrice * (1 - volatility * 1.5), currentPrice * (1 + volatility * 0.8))
  | Direction.HOLD => (currentPrice, currentPrice * 0.95)

/-- EnhancedSignalGenerator.generateReasoning. -/
def esgReasoning (indicators : TechnicalIndicators) (newsScore : ℚ)
    (action : Direction) : String :=
  let reasons : List String :=
    match action with
    | Direction.BUY =>
      (if indicators.rsi < 35 then ["RSI indicates oversold conditions"] else []) ++
      (if indicators.macd.histogram > 0 then ["MACD showing bullish momentum"] else []) ++
      (if indicators.trend = Trend.bullish then ["Strong uptrend confirmed"] else []) ++
      (if newsScore > 0.2 then ["Positive news sentiment"] else [])
    | Direction.SELL =>
      (if indicators.rsi > 65 then ["RSI indicates overbought conditions"] else []) ++
      (if indicators.macd.histogram < 0 then ["MACD showing bearish momentum"] else []) ++
      (if indicators.trend = Trend.bearish then ["Downtrend confirmed"] else []) ++
      (if newsScore < -0.2 then ["Negative news sentiment"] else [])
    | Direction.HOLD => ["Mixed signals suggest waiting for clearer direction"]
  if reasons.length > 0 then String.intercalate "; " reasons
  else "Technical analysis suggests current action"

structure EnhancedSignal where
  symbol : String
  action : Direction
  confidence : ℚ
  price : ℚ
  targetPrice : ℚ
  stopLoss : ℚ
  reasoning : String
  technicalScore : ℚ
  newsScore : ℚ
  combinedScore : ℚ
  indicators : TechnicalIndicators
  riskLevel : RiskLevel
  timeframe : String
  deriving DecidableEq, Repr

/-- EnhancedSignalGenerator.filterSignalByML: the sequence of early false
returns of the source (note the source compares the percent scale confidence
against the fractional threshold 0.65). -/
def filterSignalByML (signal : EnhancedSignal) : Bool :=
  if signal.confidence < 0.65 then false
  else if signal.action = Direction.BUY ∧ signal.indicators.rsi > 75 then false
  else if signal.action = Direction.SELL ∧ signal.indicators.rsi < 25 then false
  else if signal.action = Direction.BUY ∧ signal.indicators.macd.histogram < -0.5 then false
  else if signal.action = Direction.SELL ∧ signal.indicators.macd.histogram > 0.5 then false
  else true

/-- The catch-all fallback signal built in the catch block of
generateEnhancedSignal. -/
def enhancedFallback (symbol : String) (currentPrice : ℚ) : EnhancedSignal :=
  { symbol := symbol, action := Direction.HOLD, confidence := 30,
    price := currentPrice, targetPrice := currentPrice,
    stopLoss := currentPrice * 0.95,
    reasoning := "Insufficient data for enhanced analysis",
    technicalScore := 0, newsScore := 0, combinedScore := 0,
    indicators :=
      { rsi := 50, macd := { value := 0, signal := 0, histogram := 0 },
        sma20 := currentPrice, sma50 := currentPrice,
        ema12 := currentPrice, ema26 := currentPrice,
        bollingerBands :=
          { upper := currentPrice * 1.02, middle := currentPrice,
            lower := currentPrice * 0.98 },
        trend := Trend.neutral },
    riskLevel := RiskLevel.MEDIUM, timeframe := "1h" }

/-- EnhancedSignalGenerator.generateSimplifiedSignal, the reduced estimator
used when fewer than 20 candles are supplied. On an empty series the
JavaScript average is NaN; no modelled claim evaluates that case and the
rational convention 0 / 0 = 0 applies. -/
def generateSimplifiedSignal (symbol : String)
    (marketData : List MarketDataPoint) (newsArticles : List NewsArticle)
    (currentPrice : ℚ) : EnhancedSignal :=
  let closes := marketData.map (fun d => d.close)
  let avgPrice := closes.sum / (closes.length : ℚ)
  let priceChange := ((currentPrice - avgPrice) / avgPrice) * 100
  let newsScore := calculateNewsScore newsArticles
  let ad : Direction × ℚ :=
    if priceChange < -5 ∧ newsScore > 0 then (Direction.BUY, 60)
    else if priceChange > 5 ∧ newsScore < 0 then (Direction.SELL, 60)
    else (Direction.HOLD, 40)
  let action := ad.1
  let mockIndicators : TechnicalIndicators :=
    { rsi := 50 - priceChange, macd := { value := 0, signal := 0, histogram := 0 },
      sma20 := avgPrice, sma50 := avgPrice, ema12 := currentPrice,
      ema26 := avgPrice,
      bollingerBands :=
        { upper := currentPrice * 1.02, middle := currentPrice,
          lower := currentPrice * 0.98 },
      trend :=
        if priceChange > 0 then Trend.bullish
        else if priceChange < 0 then Trend.bearish
        else Trend.neutral }
  { symbol := symbol, action := action, confidence := ad.2,
    price := currentPrice,
    targetPrice := if action = Direction.BUY then currentPrice * 1.03 else currentPrice * 0.97,
    stopLoss := if action = Direction.BUY then currentPrice * 0.98 else currentPrice * 1.02,
    reasoning := "Simplified analysis based on " ++ toString marketData.length ++
      " data points. Price change: " ++ qToFixed 2 priceChange ++
      "%, News sentiment: " ++ qToFixed 2 newsScore,
    technicalScore := priceChange / 10, newsScore := newsScore,
    combinedScore := (priceChange / 10 + newsScore) / 2,
    indicators := mockIndicators, riskLevel := RiskLevel.MEDIUM,
    timeframe := "1h" }

/-- The body of the try block of generateEnhancedSignal after the indicator
computation succeeded, including the final machine learning filter
demotion. -/
def esgCore (indicators : TechnicalIndicators)
    (newsArticles : List NewsArticle) (symbol : String)
    (currentPrice : ℚ) : EnhancedSignal :=
  let technicalScore := calculateTechnicalScore indicators currentPrice
  let newsScore := calculateNewsScore newsArticles
  let e := ensembleSignal technicalScore newsScore 0
  let riskLevel := calculateRiskLevel indicators e.combinedScore
  let pt := calculatePriceTargets currentPrice e.action indicators
  let signal : EnhancedSignal :=
    { symbol := symbol, action := e.action, confidence := e.confidence,
      price := currentPrice, targetPrice := pt.1, stopLoss := pt.2,
      reasoning := esgReasoning indicators newsScore e.action,
      technicalScore := technicalScore, newsScore := newsScore,
      combinedScore := e.combinedScore, indicators := indicators,
      riskLevel := riskLevel, timeframe := "1h" }
  if filterSignalByML signal then signal
  else
    { signal with
      action := Direction.HOLD, confidence := 30,
      reasoning := signal.reasoning ++ " (Filtered by ML due to conflicting indicators)" }

/-- EnhancedSignalGenerator.generateEnhancedSignal: fewer than 20 candles
route to the simplified estimator before any indicator computation; an
InsufficientData throw from calculateTechnicalIndicators is caught and
answered with the catch-all fallback; otherwise the full ensemble path
runs. The function is total: no failure reaches the caller. -/
def generateEnhancedSignal (lib : IndLib) (symbol : String)
    (marketData : List MarketDataPoint) (newsArticles : List NewsArticle)
    (currentPrice : ℚ) : EnhancedSignal :=
  if marketData.length < 20 then
    generateSimplifiedSignal symbol marketData newsArticles currentPrice
  else
    match calculateTechnicalIndicators lib marketData with
    | Except.error _ => enhancedFallback symbol currentPrice
    | Except.ok indicators => esgCore indicators newsArticles symbol currentPrice

/-! ## Backtesting service (BacktestingService) -/

structure BacktestTrade where
  entryDate : ℕ
  exitDate : ℕ
  action : Direction
  entryPrice : ℚ
  exitPrice : ℚ
  tradeReturn : ℚ
  confidence : ℚ
  reasoning : String
  deriving DecidableEq, Repr

inductive PositionSide
  | LONG
  | SHORT
  deriving DecidableEq, Repr

/-- The mutable position record of runBacktest: side none is the null type
of the source. -/
structure Position where
  side : Option PositionSide
  price : ℚ
  size : ℚ
  deriving DecidableEq, Repr

/-- The loop state of runBacktest. -/
structure BTState where
  currentBalance : ℚ
  position : Position
  maxBalance : ℚ
  maxDrawdown : ℚ
  trades : List BacktestTrade
  deriving DecidableEq, Repr

/-- BacktestingService.shouldClosePosition: the six early true returns of
the source in order. -/
def shouldClosePosition (signal : EnhancedSignal) (position : Position)
    (currentPrice : ℚ) : Bool :=
  if position.side = some PositionSide.LONG ∧ signal.action = Direction.SELL then true
  else if position.side = some PositionSide.SHORT ∧ signal.action = Direction.BUY then true
  else if position.side = some PositionSide.LONG ∧ currentPrice < position.price * 0.95 then true
  else if position.side = some PositionSide.SHORT ∧ currentPrice > position.price * 1.05 then true
  else if position.side = some PositionSide.LONG ∧ currentPrice > position.price * 1.1 then true
  else if position.side = some PositionSide.SHORT ∧ currentPrice < position.price * 0.9 then true
  else false

def dummyCandle : MarketDataPoint :=
  { price := 0, volume := 0, timestamp := 0, high := 0, low := 0,
    openPrice := 0, close := 0 }

/-- One iteration of the runBacktest trading loop at index i: the 50 candle
window ending before i, the signal for it, then open, close or no-op. The
per step try/catch of the source is a no-op here because the embedded
generateEnhancedSignal is total. -/
def bStep (lib : IndLib) (symbol : String) (data : List MarketDataPoint)
    (s : BTState) (i : ℕ) : BTState :=
  let windowData := (data.drop (i - 50)).take 50
  let currentPrice := (data.getD i dummyCandle).close
  let nextPrice := (data.getD (i + 1) dummyCandle).close
  let signal := generateEnhancedSignal lib symbol windowData [] currentPrice
  if signal.action = Direction.BUY ∧ s.position.side = none then
    let size : ℚ := (⌊s.currentBalance * 0.95 / currentPrice⌋ : ℤ)
    { s with position := { side := some PositionSide.LONG, price := currentPrice, size := size },
             currentBalance := s.currentBalance - size * currentPrice }
  else if signal.action = Direction.SELL ∧ s.position.side = none then
    let size : ℚ := (⌊s.currentBalance * 0.95 / currentPrice⌋ : ℤ)
    { s with position := { side := some PositionSide.SHORT, price := currentPrice, size := size } }
  else if s.position.side ≠ none ∧ shouldClosePosition signal s.position currentPrice then
    let exitPrice := nextPrice
    let tradeReturn :=
      if s.position.side = some PositionSide.LONG then
        (exitPrice - s.position.price) * s.position.size
      else (s.position.price - exitPrice) * s.position.size
    let newBalance :=
      if s.position.side = some PositionSide.LONG then
        s.currentBalance + s.position.size * exitPrice
      else s.currentBalance + tradeReturn
    let trade : BacktestTrade :=
      { entryDate := (data.getD i dummyCandle).timestamp,
        exitDate := (data.getD (i + 1) dummyCandle).timestamp,
        action := if s.position.side = some PositionSide.LONG then Direction.BUY else Direction.SELL,
        entryPrice := s.position.price, exitPrice := exitPrice,
        tradeReturn := tradeReturn, confidence := signal.confidence,
        reasoning := signal.reasoning }
    let maxBalance := if newBalance > s.maxBalance then newBalance else s.maxBalance
    let drawdown := (maxBalance - newBalance) / maxBalance
    let maxDrawdown := if drawdown > s.maxDrawdown then drawdown else s.maxDrawdown
    { currentBalance := newBalance, position := { side := none, price := 0, size := 0 },
      maxBalance := maxBalance, maxDrawdown := maxDrawdown,
      trades := s.trades ++ [trade] }
  else s

/-- The index sequence of the runBacktest loop: i from 50 while i is below
the data length minus one. -/
def btIndices (n : ℕ) : List ℕ := List.range' 50 (n - 51)

structure BacktestResult where
  symbol : String
  period : String
  totalTrades : ℕ
  winningTrades : ℕ
  losingTrades : ℕ
  winRate : ℚ
  totalReturn : ℚ
  maxDrawdown : ℚ
  averageReturn : ℚ
  sharpeRatio : ℚ
  trades : List BacktestTrade
  deriving DecidableEq, Repr

/-- BacktestingService.runBacktest. The source fabricates its candle series
from Math.random; the embedding takes the series as the historicalData
parameter, so quantifying over it covers every draw. The period string is a
pure date formatting of the two input dates and is left empty. The average
of an empty returns list gets the or-zero treatment of the source, which the
rational convention x / 0 = 0 already satisfies, and Math.sqrt comes from
the library parameter with the or-one guard of the source. -/
def runBacktest (lib : IndLib) (symbol : String)
    (historicalData : List MarketDataPoint) (initialBalance : ℚ) :
    BacktestResult :=
  let init : BTState :=
    { currentBalance := initialBalance,
      position := { side := none, price := 0, size := 0 },
      maxBalance := initialBalance, maxDrawdown := 0, trades := [] }
  let final := (btIndices historicalData.length).foldl
    (bStep lib symbol historicalData) init
  let trades := final.trades
  let totalTrades := trades.length
  let winningTrades := (trades.filter (fun t => t.tradeReturn > 0)).length
  let losingTrades := (trades.filter (fun t => t.tradeReturn < 0)).length
  let winRate : ℚ :=
    if totalTrades > 0 then ((winningTrades : ℚ) / (totalTrades : ℚ)) * 100 else 0
  let totalReturn := ((final.currentBalance - initialBalance) / initialBalance) * 100
  let averageReturn : ℚ :=
    if totalTrades > 0 then (trades.map (fun t => t.tradeReturn)).sum / (totalTrades : ℚ)
    else 0
  let returns := trades.map (fun t => t.tradeReturn / initialBalance * 100)
  let avgReturn := returns.sum / (returns.length : ℚ)
  let variance := (returns.map (fun r => (r - avgReturn) ^ 2)).sum / (returns.length : ℚ)
  let sqrtVal := lib.sqrtFn variance
  let stdDev := if sqrtVal = 0 then 1 else sqrtVal
  { symbol := symbol, period := "", totalTrades := totalTrades,
    winningTrades := winningTrades, losingTrades := losingTrades,
    winRate := winRate, totalReturn := totalReturn,
    maxDrawdown := final.maxDrawdown * 100, averageReturn := averageReturn,
    sharpeRatio := avgReturn / stdDev, trades := trades }

/-! ## Quick accuracy test (BacktestingService.quickAccuracyTest) -/

/-- The index sequence of the quickAccuracyTest loop: i from 20 in steps of
5 while i is below the data length minus five. -/
def quickIndices (n : ℕ) : List ℕ :=
  (List.range n).filter (fun i => 20 ≤ i ∧ i < n - 5 ∧ (i - 20) % 5 = 0)

/-- The sliding window historicalData.slice(max(0, i - 20), i) of the
quickAccuracyTest loop. -/
def quickWindow (data : List MarketDataPoint) (i : ℕ) :
    List MarketDataPoint :=
  (data.drop (i - 20)).take (i - (i - 20))

/-- One iteration of the quickAccuracyTest loop, accumulating wins and
totalSignals. -/
def quickStep (lib : IndLib) (symbol : String)
    (data : List MarketDataPoint) (acc : ℕ × ℕ) (i : ℕ) : ℕ × ℕ :=
  let windowData := quickWindow data i
  let currentPrice := (data.getD i dummyCandle).close
  let signal := generateEnhancedSignal lib symbol windowData [] currentPrice
  if signal.action ≠ Direction.HOLD then
    let futureIndex := min (i + 3) (data.length - 1)
    let futurePrice := (data.getD futureIndex dummyCandle).close
    let wasCorrect :=
      (signal.action = Direction.BUY ∧ futurePrice > currentPrice) ∨
      (signal.action = Direction.SELL ∧ futurePrice < currentPrice)
    ((if wasCorrect then acc.1 + 1 else acc.1), acc.2 + 1)
  else acc

/-- The wins and totalSignals accumulated over the whole quickAccuracyTest
loop. -/
def quickStats (lib : IndLib) (symbol : String)
    (data : List MarketDataPoint) : ℕ × ℕ :=
  (quickIndices data.length).foldl (quickStep lib symbol data) (0, 0)

structure AccuracyResult where
  accuracy : ℚ
  confidence : ℚ
  deriving DecidableEq, Repr

/-- BacktestingService.quickAccuracyTest. The source first fetches Binance
klines, falling back to synthetic Math.random data; the embedding takes the
resulting series as the data parameter, so quantifying over it covers both
branches. The outer catch block cannot fire in the embedding because every
step is total. -/
def quickAccuracyTest (lib : IndLib) (symbol : String)
    (data : List MarketDataPoint) : AccuracyResult :=
  let stats := quickStats lib symbol data
  { accuracy := if stats.2 > 0 then ((stats.1 : ℚ) / (stats.2 : ℚ)) * 100 else 65,
    confidence := min ((stats.2 : ℚ) * 15) 95 }

/-! ## Helper lemmas -/

lemma rsiTerm_bounds (r : ℚ) : -0.8 ≤ rsiTerm r ∧ rsiTerm r ≤ 0.8 := by
  unfold rsiTerm
  split_ifs with h1 h2
  · norm_num
  · norm_num
  · push_neg at h1 h2
    constructor <;> [nlinarith; nlinarith]

lemma macdTerm_bounds (m : MacdVal) : -0.7 ≤ macdTerm m ∧ macdTerm m ≤ 0.7 := by
  unfold macdTerm
  split_ifs <;> norm_num

lemma maTerm_bounds (p a b : ℚ) : -0.6 ≤ maTerm p a b ∧ maTerm p a b ≤ 0.6 := by
  unfold maTerm
  split_ifs <;> norm_num

lemma bbTerm_bounds (p : ℚ) (bb : BollingerVal) :
    -0.5 ≤ bbTerm p bb ∧ bbTerm p bb ≤ 0.5 := by
  simp only [bbTerm]
  split_ifs <;> norm_num

lemma trendTerm_bounds (t : Trend) : -0.4 ≤ trendTerm t ∧ trendTerm t ≤ 0.4 := by
  cases t <;> simp [trendTerm] <;> norm_num

lemma calculateTechnicalScore_bounds (ind : TechnicalIndicators) (p : ℚ) :
    -0.6 ≤ calculateTechnicalScore ind p ∧ calculateTechnicalScore ind p ≤ 0.6 := by
  obtain ⟨h1a, h1b⟩ := rsiTerm_bounds ind.rsi
  obtain ⟨h2a, h2b⟩ := macdTerm_bounds ind.macd
  obtain ⟨h3a, h3b⟩ := maTerm_bounds p ind.sma20 ind.sma50
  obtain ⟨h4a, h4b⟩ := bbTerm_bounds p ind.bollingerBands
  obtain ⟨h5a, h5b⟩ := trendTerm_bounds ind.trend
  unfold calculateTechnicalScore
  constructor <;> [linarith; linarith]

lemma ensembleSignal_action_hold (ts : ℚ) (h1 : -0.6 ≤ ts) (h2 : ts ≤ 0.6) :
    (ensembleSignal ts 0 0).action = Direction.HOLD := by
  simp only [ensembleSignal]
  split_ifs with ha hb
  · exfalso; norm_num at ha; linarith
  · exfalso; norm_num at hb; linarith
  · rfl

lemma calculateNewsScore_nil : calculateNewsScore [] = 0 := rfl

lemma generateSimplifiedSignal_action (sym : String)
    (data : List MarketDataPoint) (cp : ℚ) :
    (generateSimplifiedSignal sym data [] cp).action = Direction.HOLD := by
  simp only [generateSimplifiedSignal, calculateNewsScore_nil]
  norm_num

lemma esgCore_action (ind : TechnicalIndicators) (sym : String) (cp : ℚ) :
    (esgCore ind [] sym cp).action = Direction.HOLD := by
  have hb := calculateTechnicalScore_bounds ind cp
  have hh := ensembleSignal_action_hold _ hb.1 hb.2
  simp only [esgCore, calculateNewsScore_nil]
  split_ifs with hf
  · exact hh
  · rfl

lemma generateEnhancedSignal_action (lib : IndLib) (sym : String)
    (data : List MarketDataPoint) (cp : ℚ) :
    (generateEnhancedSignal lib sym data [] cp).action = Direction.HOLD := by
  unfold generateEnhancedSignal
  split_ifs with h
  · exact generateSimplifiedSignal_action sym data cp
  · cases hcalc : calculateTechnicalIndicators lib data with
    | error e => rfl
    | ok ind => exact esgCore_action ind sym cp

lemma bStep_flat (lib : IndLib) (sym : String) (data : List MarketDataPoint)
    (s : BTState) (i : ℕ) (h : s.position.side = none) :
    bStep lib sym data s i = s := by
  simp [bStep, h, generateEnhancedSignal_action]

lemma foldl_bStep_flat (lib : IndLib) (sym : String)
    (data : List MarketDataPoint) (l : List ℕ) (s : BTState)
    (h : s.position.side = none) :
    l.foldl (bStep lib sym data) s = s := by
  induction l with
  | nil => rfl
  | cons a t ih => rw [List.foldl_cons, bStep_flat lib sym data s a h]; exact ih

/-- With the news list empty, every backtest signal is HOLD, so the loop
never opens a position and the final state is the initial one; the closed
form of the resulting BacktestResult. -/
lemma runBacktest_closed (lib : IndLib) (sym : String)
    (data : List MarketDataPoint) (initialBalance : ℚ) :
    runBacktest lib sym data initialBalance =
    { symbol := sym, period := "", totalTrades := 0, winningTrades := 0,
      losingTrades := 0, winRate := 0, totalReturn := 0, maxDrawdown := 0,
      averageReturn := 0, sharpeRatio := 0, trades := [] } := by
  simp only [runBacktest]
  rw [foldl_bStep_flat lib sym data _ _ rfl]
  norm_num

lemma quickStep_id (lib : IndLib) (sym : String)
    (data : List MarketDataPoint) (acc : ℕ × ℕ) (i : ℕ) :
    quickStep lib sym data acc i = acc := by
  simp [quickStep, generateEnhancedSignal_action]

lemma quickStats_eq (lib : IndLib) (sym : String)
    (data : List MarketDataPoint) : quickStats lib sym data = (0, 0) := by
  unfold quickStats
  generalize quickIndices data.length = l
  induction l with
  | nil => rfl
  | cons a t ih => rw [List.foldl_cons, quickStep_id]; exact ih

/-! ## Claim theorems -/

/-- Characterization of the direction component of
determineDirectionAndConfidence. -/
lemma dDC_fst (x : ℚ) :
    (determineDirectionAndConfidence x).1 =
      (if x > 0.15 then Direction.BUY
       else if x < -0.15 then Direction.SELL else Direction.HOLD) := by
  simp only [determineDirectionAndConfidence]
  split_ifs <;> rfl

/-- SELL below HOLD below BUY, the order in which the direction is monotone
in the final score. -/
def dirRank : Direction → ℕ
  | Direction.SELL => 0
  | Direction.HOLD => 1
  | Direction.BUY => 2

/-- Claim C1: the direction of a FusionSignal is BUY exactly above the plus
0.15 band edge, SELL exactly below the minus 0.15 band edge and HOLD on the
closed band between them; the direction is monotone in the final score under
the order SELL, HOLD, BUY, and between a SELL score and a BUY score there is
always an intermediate score mapped to HOLD. -/
theorem claim_C1_direction_band_monotone (x y : ℚ) :
    ((determineDirectionAndConfidence x).1 = Direction.BUY ↔ 0.15 < x) ∧
    ((determineDirectionAndConfidence x).1 = Direction.SELL ↔ x < -0.15) ∧
    ((determineDirectionAndConfidence x).1 = Direction.HOLD ↔
      -0.15 ≤ x ∧ x ≤ 0.15) ∧
    (x ≤ y → dirRank (determineDirectionAndConfidence x).1 ≤
      dirRank (determineDirectionAndConfidence y).1) ∧
    ((determineDirectionAndConfidence x).1 = Direction.SELL →
      (determineDirectionAndConfidence y).1 = Direction.BUY →
      ∃ z, x < z ∧ z < y ∧
        (determineDirectionAndConfidence z).1 = Direction.HOLD) := by
  refine ⟨?_, ?_, ?_, ?_, ?_⟩
  · rw [dDC_fst]
    split_ifs with h1 h2 <;> simp_all
  · rw [dDC_fst]
    split_ifs with h1 h2 <;> simp_all
    linarith
  · rw [dDC_fst]
    split_ifs with h1 h2 <;> simp_all
  · intro hxy
    rw [dDC_fst, dDC_fst]
    split_ifs <;> simp [dirRank] <;> try linarith
  · intro hs hb
    rw [dDC_fst] at hs hb
    split_ifs at hs with h1 h2
    split_ifs at hb with h3 h4
    refine ⟨0, by linarith, by linarith, ?_⟩
    rw [dDC_fst]
    norm_num

/-- Claim C1 witness at the concrete scores minus one and one. -/
theorem claim_C1_witness :
    (-1 : ℚ) ≤ 1 ∧
    dirRank (determineDirectionAndConfidence (-1)).1 ≤
      dirRank (determineDirectionAndConfidence 1).1 :=
  ⟨by norm_num, (claim_C1_direction_band_monotone (-1) 1).2.2.2.1 (by norm_num)⟩

/-- Claim C2: each of the three weight tables sums to exactly one, and for
every symbol and every combination of five source scores bounded by one in
magnitude the fused score is the symbol-class weighted sum clamped to the
interval from -1 to 1, hence itself in that interval. -/
theorem claim_C2_weight_tables_clamp :
    (dataSourceWeights.technical + dataSourceWeights.social +
      dataSourceWeights.telegram + dataSourceWeights.indianMarket +
      dataSourceWeights.news = 1) ∧
    (cryptoWeights.technical + cryptoWeights.social + cryptoWeights.telegram +
      cryptoWeights.indianMarket + cryptoWeights.news = 1) ∧
    (indianWeights.technical + indianWeights.social + indianWeights.telegram +
      indianWeights.indianMarket + indianWeights.news = 1) ∧
    ∀ (symbol : String) (s : SourceScores),
      |s.technicalScore| ≤ 1 → |s.socialScore| ≤ 1 → |s.telegramScore| ≤ 1 →
      |s.indianMarketScore| ≤ 1 → |s.newsScore| ≤ 1 →
      calculateWeightedScore s symbol =
        max (-1) (min 1 (weightedSum (weightsFor symbol) s)) ∧
      -1 ≤ calculateWeightedScore s symbol ∧
      calculateWeightedScore s symbol ≤ 1 := by
  refine ⟨by norm_num [dataSourceWeights], by norm_num [cryptoWeights],
    by norm_num [indianWeights], ?_⟩
  intro symbol s _ _ _ _ _
  exact ⟨rfl, le_max_left _ _, max_le (by norm_num) (min_le_left _ _)⟩

def sScores0 : SourceScores :=
  { technicalScore := 0, socialScore := 0, telegramScore := 0,
    indianMarketScore := 0, newsScore := 0 }

/-- Claim C2 witness at the all-zero scores for the symbol BTC. -/
theorem claim_C2_witness :
    calculateWeightedScore sScores0 "BTC" =
      max (-1) (min 1 (weightedSum (weightsFor "BTC") sScores0)) ∧
    -1 ≤ calculateWeightedScore sScores0 "BTC" ∧
    calculateWeightedScore sScores0 "BTC" ≤ 1 :=
  claim_C2_weight_tables_clamp.2.2.2 "BTC" sScores0 (by norm_num [sScores0])
    (by norm_num [sScores0]) (by norm_num [sScores0]) (by norm_num [sScores0])
    (by norm_num [sScores0])

/-- Claim C3: the confidence paired with the assigned direction is the clamp
of one hundred times the magnitude of the final score to the interval from
50 to 100 when the direction is BUY or SELL and is additionally capped at 60
when the direction is HOLD; every confidence lies between 50 and 100, and a
HOLD confidence lies between 50 and 60. -/
theorem claim_C3_confidence_clamp (x : ℚ) :
    ((determineDirectionAndConfidence x).1 ≠ Direction.HOLD →
      (determineDirectionAndConfidence x).2 = min 100 (max 50 (|x| * 100))) ∧
    ((determineDirectionAndConfidence x).1 = Direction.HOLD →
      (determineDirectionAndConfidence x).2 =
        min (min 100 (max 50 (|x| * 100))) 60) ∧
    (50 ≤ (determineDirectionAndConfidence x).2 ∧
      (determineDirectionAndConfidence x).2 ≤ 100) ∧
    ((determineDirectionAndConfidence x).1 = Direction.HOLD →
      50 ≤ (determineDirectionAndConfidence x).2 ∧
      (determineDirectionAndConfidence x).2 ≤ 60) := by
  have h50 : (50 : ℚ) ≤ min 100 (max 50 (|x| * 100)) :=
    le_min (by norm_num) (le_max_left _ _)
  have h100 : min 100 (max 50 (|x| * 100)) ≤ 100 := min_le_left _ _
  simp only [determineDirectionAndConfidence]
  split_ifs with h1 h2
  · exact ⟨fun _ => rfl, fun hh => absurd hh (by simp), ⟨h50, h100⟩,
      fun hh => absurd hh (by simp)⟩
  · exact ⟨fun _ => rfl, fun hh => absurd hh (by simp), ⟨h50, h100⟩,
      fun hh => absurd hh (by simp)⟩
  · exact ⟨fun hne => absurd rfl hne, fun _ => rfl,
      ⟨le_min h50 (by norm_num), le_trans (min_le_left _ _) h100⟩,
      fun _ => ⟨le_min h50 (by norm_num), min_le_right _ _⟩⟩

/-- Claim C3 witness at the concrete final score one. -/
theorem claim_C3_witness :
    (determineDirectionAndConfidence 1).1 ≠ Direction.HOLD ∧
    (determineDirectionAndConfidence 1).2 = min 100 (max 50 (|(1 : ℚ)| * 100)) :=
  ⟨by rw [dDC_fst]; norm_num; decide,
   (claim_C3_confidence_clamp 1).1 (by rw [dDC_fst]; norm_num; decide)⟩

/-- Claim C4: calculateTechnicalIndicators yields the InsufficientData error
exactly on series of fewer than 50 candles, the empty series included, and
yields an indicator record on every series of at least 50 candles, for every
interpretation of the external indicator library. -/
theorem claim_C4_insufficient_data (lib : IndLib)
    (data : List MarketDataPoint) :
    (calculateTechnicalIndicators lib data =
      Except.error IndicatorError.insufficientData ↔ data.length < 50) ∧
    ((∃ ind, calculateTechnicalIndicators lib data = Except.ok ind) ↔
      50 ≤ data.length) := by
  have hlen : (data.map (fun d => d.close)).length = data.length := by simp
  simp only [calculateTechnicalIndicators]
  rw [hlen]
  constructor
  · split_ifs with h <;> simp [h]
  · split_ifs with h <;> simp [h] <;> omega

/-- A concrete interpretation of the external indicator library, used only
by the witnesses: every calculator yields the empty list and the square root
is the zero function. -/
def trivLib : IndLib :=
  { rsiCalc := fun _ => [], macdCalc := fun _ => [],
    smaCalc := fun _ _ => [], emaCalc := fun _ _ => [],
    bbCalc := fun _ => [], sqrtFn := fun _ => 0 }

/-- Claim C4 witness: the empty series yields the InsufficientData error. -/
theorem claim_C4_witness :
    calculateTechnicalIndicators trivLib [] =
      Except.error IndicatorError.insufficientData :=
  (claim_C4_insufficient_data trivLib []).1.mpr (by decide)

def candle100 : MarketDataPoint :=
  { price := 100, volume := 0, timestamp := 0, high := 100, low := 100,
    openPrice := 100, close := 100 }

/-- A concrete series of twenty identical candles: long enough to pass the
twenty candle gate of generateEnhancedSignal, short enough to make the
indicator engine raise InsufficientData. -/
def d20 : List MarketDataPoint := List.replicate 20 candle100

lemma calcTI_error_of_lt (lib : IndLib) (data : List MarketDataPoint)
    (h50 : data.length < 50) :
    calculateTechnicalIndicators lib data =
      Except.error IndicatorError.insufficientData := by
  have hlen : (data.map (fun d => d.close)).length = data.length := by simp
  simp only [calculateTechnicalIndicators]
  rw [hlen, if_pos h50]

lemma ges_fallback_of_len (lib : IndLib) (sym : String)
    (data : List MarketDataPoint) (news : List NewsArticle) (cp : ℚ)
    (h20 : 20 ≤ data.length) (h50 : data.length < 50) :
    generateEnhancedSignal lib sym data news cp = enhancedFallback sym cp := by
  unfold generateEnhancedSignal
  rw [if_neg (by omega), calcTI_error_of_lt lib data h50]

lemma generateSimplifiedSignal_confidence (sym : String)
    (data : List MarketDataPoint) (cp : ℚ) :
    (generateSimplifiedSignal sym data [] cp).confidence = 40 := by
  simp only [generateSimplifiedSignal, calculateNewsScore_nil]
  norm_num

lemma d20_len : d20.length = 20 := by simp [d20]

/-- Claim C5 counterexample: on a twenty candle series the indicator engine
raises InsufficientData, yet generateEnhancedSignal answers with the generic
catch-all fallback of confidence 30, not with the simplified estimator
(whose confidence here would be 40): the recovery path claimed by the spec
is not the one taken when InsufficientData is actually raised. -/
theorem claim_C5_counterexample :
    calculateTechnicalIndicators trivLib d20 =
      Except.error IndicatorError.insufficientData ∧
    (generateEnhancedSignal trivLib "BTC" d20 [] 100).confidence = 30 ∧
    (generateSimplifiedSignal "BTC" d20 [] 100).confidence = 40 ∧
    generateEnhancedSignal trivLib "BTC" d20 [] 100 ≠
      generateSimplifiedSignal "BTC" d20 [] 100 := by
  have hf : generateEnhancedSignal trivLib "BTC" d20 [] 100 =
      enhancedFallback "BTC" 100 :=
    ges_fallback_of_len trivLib "BTC" d20 [] 100 (by rw [d20_len])
      (by rw [d20_len]; norm_num)
  have h30 : (generateEnhancedSignal trivLib "BTC" d20 [] 100).confidence = 30 := by
    rw [hf]; rfl
  have h40 := generateSimplifiedSignal_confidence "BTC" d20 100
  refine ⟨calcTI_error_of_lt trivLib d20 (by rw [d20_len]; norm_num), h30, h40,
    fun h => ?_⟩
  have hc := congrArg EnhancedSignal.confidence h
  rw [h30, h40] at hc
  norm_num at hc

/-- Claim C5 as amended: whenever the indicator engine raises
InsufficientData (a series of at least 20 and fewer than 50 candles),
generateEnhancedSignal recovers locally with the catch-all fallback signal
(HOLD, confidence 30, reasoning naming the insufficient data) and never
surfaces the failure to the caller; the simplified estimator runs only for
series shorter than 20 candles, where InsufficientData is never raised. -/
theorem claim_C5_degraded_fallback (lib : IndLib) (sym : String)
    (data : List MarketDataPoint) (news : List NewsArticle) (cp : ℚ)
    (h20 : 20 ≤ data.length) (h50 : data.length < 50) :
    calculateTechnicalIndicators lib data =
      Except.error IndicatorError.insufficientData ∧
    generateEnhancedSignal lib sym data news cp = enhancedFallback sym cp := by
  exact ⟨calcTI_error_of_lt lib data h50,
    ges_fallback_of_len lib sym data news cp h20 h50⟩

/-- Claim C5 witness: the amended statement at a concrete twenty candle
series. -/
theorem claim_C5_witness :
    calculateTechnicalIndicators trivLib d20 =
      Except.error IndicatorError.insufficientData ∧
    generateEnhancedSignal trivLib "ETH" d20 [] 100 = enhancedFallback "ETH" 100 :=
  claim_C5_degraded_fallback trivLib "ETH" d20 [] 100 (by decide) (by decide)

/-- Claim C6: one step of the runBacktest trading loop never replaces a held
position by another one: when a position is held, the step either leaves it
unchanged or clears it to none (a close); together with the single position
variable of the loop state this is the no pyramiding, no hedging property of
a backtest run, whose every transition is such a step starting from the flat
initial state. -/
theorem claim_C6_no_pyramiding (lib : IndLib) (sym : String)
    (data : List MarketDataPoint) (s : BTState) (i : ℕ)
    (h : s.position.side ≠ none) :
    (bStep lib sym data s i).position.side = s.position.side ∨
    (bStep lib sym data s i).position.side = none := by
  simp only [bStep]
  split_ifs with h1 h2 h3 <;>
    first
      | exact absurd h1.2 h
      | exact absurd h2.2 h
      | (right; rfl)
      | (left; rfl)

def s0 : BTState :=
  { currentBalance := 10000,
    position := { side := some PositionSide.LONG, price := 100, size := 1 },
    maxBalance := 10000, maxDrawdown := 0, trades := [] }

/-- Claim C6 witness at a concrete held long position. -/
theorem claim_C6_witness :
    s0.position.side ≠ none ∧
    ((bStep trivLib "BTC" [] s0 0).position.side = s0.position.side ∨
     (bStep trivLib "BTC" [] s0 0).position.side = none) :=
  ⟨by decide, claim_C6_no_pyramiding trivLib "BTC" [] s0 0 (by decide)⟩

/-- Claim C7: every runBacktest result satisfies totalTrades equals
winningTrades plus losingTrades, the winning trades being the closed trades
of positive return and the losing ones those of negative return (the filter
definitions inside runBacktest). With the empty news list the backtest hands
to every signal call, the ensemble score is bounded by 0.3 in magnitude, so
every signal is HOLD, no trade ever opens and all three counts are zero. -/
theorem claim_C7_trade_accounting (lib : IndLib) (sym : String)
    (data : List MarketDataPoint) (initialBalance : ℚ) :
    (runBacktest lib sym data initialBalance).totalTrades =
      (runBacktest lib sym data initialBalance).winningTrades +
      (runBacktest lib sym data initialBalance).losingTrades := by
  rw [runBacktest_closed]; rfl

/-- Claim C8: winRate is the percentage of winning trades when totalTrades
is positive and exactly zero (no division performed) when totalTrades is
zero, and always lies between 0 and 100. -/
theorem claim_C8_winrate (lib : IndLib) (sym : String)
    (data : List MarketDataPoint) (initialBalance : ℚ) :
    ((runBacktest lib sym data initialBalance).totalTrades > 0 →
      (runBacktest lib sym data initialBalance).winRate =
        (((runBacktest lib sym data initialBalance).winningTrades : ℚ) /
          ((runBacktest lib sym data initialBalance).totalTrades : ℚ)) * 100) ∧
    ((runBacktest lib sym data initialBalance).totalTrades = 0 →
      (runBacktest lib sym data initialBalance).winRate = 0) ∧
    0 ≤ (runBacktest lib sym data initialBalance).winRate ∧
    (runBacktest lib sym data initialBalance).winRate ≤ 100 := by
  rw [runBacktest_closed]
  exact ⟨fun hh => absurd hh (by norm_num), fun _ => rfl, by norm_num, by norm_num⟩

/-- Claim C8 witness: the zero trade case at a concrete run. -/
theorem claim_C8_witness : (runBacktest trivLib "BTC" [] 10000).winRate = 0 :=
  (claim_C8_winrate trivLib "BTC" [] 10000).2.1 rfl

def srcs0 : SourceResults :=
  { technical := none, social := none, telegram := none,
    indianMarket := none, news := none }

/-- Claim C9 counterexample: two generateFusionSignal runs with identical
settled source results and even an identical timestamp still differ, because
the id field is a fresh randomUUID draw on every call — so the two signals
are not identical except for the timestamp field, refuting the claim as
stated. The two distinct id arguments stand for the two distinct draws. -/
theorem claim_C9_counterexample :
    (generateFusionSignal "BTC" srcs0 "id-a" 0).timestamp =
      (generateFusionSignal "BTC" srcs0 "id-b" 0).timestamp ∧
    (generateFusionSignal "BTC" srcs0 "id-a" 0).id ≠
      (generateFusionSignal "BTC" srcs0 "id-b" 0).id := by
  refine ⟨rfl, fun h => ?_⟩
  have hc : "id-a" = "id-b" := h
  simp at hc

/-- Claim C9 as amended: two generateFusionSignal runs on the same symbol
with identical settled source results agree on every field except id,
timestamp and lastUpdated (the latter is set to the same instant as
timestamp, and id is a fresh randomUUID per call). -/
theorem claim_C9_determinism_mod_id_time (sym : String) (src : SourceResults)
    (id1 id2 : String) (t1 t2 : ℕ) :
    (generateFusionSignal sym src id1 t1).symbol =
      (generateFusionSignal sym src id2 t2).symbol ∧
    (generateFusionSignal sym src id1 t1).direction =
      (generateFusionSignal sym src id2 t2).direction ∧
    (generateFusionSignal sym src id1 t1).confidence =
      (generateFusionSignal sym src id2 t2).confidence ∧
    (generateFusionSignal sym src id1 t1).finalScore =
      (generateFusionSignal sym src id2 t2).finalScore ∧
    (generateFusionSignal sym src id1 t1).reasoning =
      (generateFusionSignal sym src id2 t2).reasoning ∧
    (generateFusionSignal sym src id1 t1).technicalScore =
      (generateFusionSignal sym src id2 t2).technicalScore ∧
    (generateFusionSignal sym src id1 t1).socialScore =
      (generateFusionSignal sym src id2 t2).socialScore ∧
    (generateFusionSignal sym src id1 t1).telegramScore =
      (generateFusionSignal sym src id2 t2).telegramScore ∧
    (generateFusionSignal sym src id1 t1).indianMarketScore =
      (generateFusionSignal sym src id2 t2).indianMarketScore ∧
    (generateFusionSignal sym src id1 t1).newsScore =
      (generateFusionSignal sym src id2 t2).newsScore ∧
    (generateFusionSignal sym src id1 t1).socialMentions =
      (generateFusionSignal sym src id2 t2).socialMentions ∧
    (generateFusionSignal sym src id1 t1).telegramMentions =
      (generateFusionSignal sym src id2 t2).telegramMentions ∧
    (generateFusionSignal sym src id1 t1).sentimentMomentum =
      (generateFusionSignal sym src id2 t2).sentimentMomentum ∧
    (generateFusionSignal sym src id1 t1).volumeIndicator =
      (generateFusionSignal sym src id2 t2).volumeIndicator ∧
    (generateFusionSignal sym src id1 t1).riskLevel =
      (generateFusionSignal sym src id2 t2).riskLevel ∧
    (generateFusionSignal sym src id1 t1).timeHorizon =
      (generateFusionSignal sym src id2 t2).timeHorizon ∧
    (generateFusionSignal sym src id1 t1).marketCondition =
      (generateFusionSignal sym src id2 t2).marketCondition ∧
    (generateFusionSignal sym src id1 t1).suggestedEntry =
      (generateFusionSignal sym src id2 t2).suggestedEntry ∧
    (generateFusionSignal sym src id1 t1).suggestedStopLoss =
      (generateFusionSignal sym src id2 t2).suggestedStopLoss ∧
    (generateFusionSignal sym src id1 t1).suggestedTarget =
      (generateFusionSignal sym src id2 t2).suggestedTarget ∧
    (generateFusionSignal sym src id1 t1).positionSize =
      (generateFusionSignal sym src id2 t2).positionSize ∧
    (generateFusionSignal sym src id1 t1).dataSourcesUsed =
      (generateFusionSignal sym src id2 t2).dataSourcesUsed ∧
    (generateFusionSignal sym src id1 t1).isActive =
      (generateFusionSignal sym src id2 t2).isActive :=
  ⟨rfl, rfl, rfl, rfl, rfl, rfl, rfl, rfl, rfl, rfl, rfl, rfl, rfl, rfl, rfl,
   rfl, rfl, rfl, rfl, rfl, rfl, rfl, rfl⟩

/-- Claim C10: for every symbol, every library interpretation and every
input data series, the quickAccuracyTest loop counts zero directional
signals (every window has exactly 20 candles, passes the 20 candle gate,
fails the 50 candle indicator requirement, and the resulting signal is the
catch-all HOLD fallback), so the method reports the default accuracy 65 with
confidence zero, never an accuracy derived from directional outcomes. -/
theorem claim_C10_quick_test_constant (lib : IndLib) (sym : String)
    (data : List MarketDataPoint) :
    quickStats lib sym data = (0, 0) ∧
    quickAccuracyTest lib sym data = { accuracy := 65, confidence := 0 } ∧
    ∀ i ∈ quickIndices data.length,
      (quickWindow data i).length = 20 ∧
      generateEnhancedSignal lib sym (quickWindow data i) []
          ((data.getD i dummyCandle).close) =
        enhancedFallback sym ((data.getD i dummyCandle).close) := by
  have hstats := quickStats_eq lib sym data
  refine ⟨hstats, ?_, ?_⟩
  · unfold quickAccuracyTest
    rw [hstats]
    norm_num
  · intro i hi
    simp only [quickIndices, List.mem_filter, List.mem_range,
      decide_eq_true_eq] at hi
    have hlen : (quickWindow data i).length = 20 := by
      simp only [quickWindow, List.length_take, List.length_drop]
      omega
    exact ⟨hlen, ges_fallback_of_len lib sym (quickWindow data i) []
      ((data.getD i dummyCandle).close) (by omega) (by omega)⟩

/-- A concrete series of 26 identical candles, long enough for the
quickAccuracyTest loop to run one iteration at index 20. -/
def d26 : List MarketDataPoint := List.replicate 26 candle100

/-- Claim C10 witness at the concrete 26 candle series. -/
theorem claim_C10_witness :
    quickAccuracyTest trivLib "BTC" d26 = { accuracy := 65, confidence := 0 } ∧
    (quickWindow d26 20).length = 20 :=
  ⟨(claim_C10_quick_test_constant trivLib "BTC" d26).2.1,
   ((claim_C10_quick_test_constant trivLib "BTC" d26).2.2 20 (by decide)).1⟩
